import Mathlib

/-!
Shallow embedding of the Turbidity Dashboard ingestion-and-analytics core
(`src/unnamed/part_001`, with the incremental-statistics variant from
`src/src/Dashboard.jsx` / `src/unnamed/part_003`), together with theorems
settling the specification claims about it.

JavaScript numbers are modelled as exact rationals (`ℚ`), row ids as `ℤ`,
timestamps as milliseconds (`ℚ`).  `Math.round` and `toFixed(k)` both round
to the nearest, ties toward positive infinity, which coincides with
Mathlib's `round`.
-/

/-- Trend classification values (`'rising' | 'falling' | 'stable'`). -/
inductive Trend where
  | rising
  | falling
  | stable
deriving DecidableEq, Repr

/-- Alert levels (`'normal' | 'warning' | 'danger' | 'critical'`). -/
inductive AlertLevel where
  | normal
  | warning
  | danger
  | critical
deriving DecidableEq, Repr

/-- Threshold configuration record. -/
structure ThresholdConfig where
  normal : ℚ
  warning : ℚ
  danger : ℚ
  critical : ℚ

/-- The module-level threshold constant of `part_001`:
`{normal: 100, warning: 500, danger: 1000, critical: 1500}`. -/
def thresholds : ThresholdConfig :=
  { normal := 100, warning := 500, danger := 1000, critical := 1500 }

/-- `Math.round` semantics on exact rationals: nearest integer, ties toward
positive infinity (Mathlib's `round` is `⌊x + 1/2⌋`, which matches). -/
def jsRound (q : ℚ) : ℤ := round q

/-- `Number(x.toFixed(2))` on exact rationals. -/
def round2 (q : ℚ) : ℚ := (jsRound (q * 100) : ℚ) / 100

/-- `Number(x.toFixed(1))` on exact rationals. -/
def round1 (q : ℚ) : ℚ := (jsRound (q * 10) : ℚ) / 10

/-- `arr.slice(-n)` on lists: the last `n` elements (the whole list when it
is shorter than `n`). -/
def lastN (n : ℕ) (l : List α) : List α := l.drop (l.length - n)

/-- `calculateTrend` (`part_001` lines 345–355, identically in
`Dashboard.jsx` lines 216–228): split at `Math.floor(length / 2)`, compare
the two half means against ×1.1 / ×0.9 of the first half's mean. -/
def calculateTrend (values : List ℚ) : Trend :=
  if values.length < 2 then .stable
  else
    let mid := values.length / 2
    let first := values.take mid
    let second := values.drop mid
    let avg1 := first.sum / (first.length : ℚ)
    let avg2 := second.sum / (second.length : ℚ)
    if avg2 > avg1 * (11/10) then .rising
    else if avg2 < avg1 * (9/10) then .falling
    else .stable

/-- `determineAlertLevel` (`part_001` lines 357–368).  Note the lowest
non-default tier tests only `latest`, not `average`. -/
def determineAlertLevel (latest average : ℚ) (trend : Trend) : AlertLevel :=
  if latest ≥ thresholds.critical ∨ average ≥ thresholds.critical then .critical
  else if latest ≥ thresholds.danger ∨ average ≥ thresholds.danger then
    if trend = .rising then .critical else .danger
  else if latest ≥ thresholds.warning ∨ average ≥ thresholds.warning then
    if trend = .rising then .danger else .warning
  else if latest ≥ thresholds.normal then
    if trend = .rising then .warning else .normal
  else .normal

/-- Distribution histogram bins (counts per threshold band). -/
structure Bins where
  normal : ℕ
  warning : ℕ
  danger : ℕ
  critical : ℕ
deriving DecidableEq, Repr

/-- One step of the `values.forEach` loop of `computeDistribution`
(`part_001` lines 336–341). -/
def binsAdd (b : Bins) (v : ℚ) : Bins :=
  if v < thresholds.normal then { b with normal := b.normal + 1 }
  else if v < thresholds.warning then { b with warning := b.warning + 1 }
  else if v < thresholds.danger then { b with danger := b.danger + 1 }
  else { b with critical := b.critical + 1 }

/-- `computeDistribution` (`part_001` lines 330–343). -/
def computeDistribution (values : List ℚ) : Bins :=
  values.foldl binsAdd ⟨0, 0, 0, 0⟩

/-- A formatted window point (`part_001` `processTurbidityData` /
`fetchNewData` mapping): `value` is the inverted sensor value, `timeMs` is
the `fullDate` in epoch milliseconds. -/
structure Point where
  id : ℤ
  value : ℚ
  timeMs : ℚ
deriving DecidableEq, Repr

/-- A raw store row `{id, value, created_at}` as returned by the
`turbidity_readings` queries (`created_at` as epoch milliseconds). -/
structure Row where
  id : ℤ
  value : ℚ
  timeMs : ℚ
deriving DecidableEq, Repr

/-- `invertIfNeeded` (`part_001` lines 94–98): `SENSOR_MAX - value` with
`SENSOR_MAX = 3000`. -/
def invertIfNeeded (value : ℚ) : ℚ := 3000 - value

/-- The per-row mapping applied by both `processTurbidityData` and
`fetchNewData` before a row enters the window. -/
def toPoint (r : Row) : Point :=
  { id := r.id, value := invertIfNeeded r.value, timeMs := r.timeMs }

/-- Published accumulation metrics: `accumulationRate`, `daysToClog`
(`null` when the rate is not positive), `stabilityIndex`. -/
structure AccMetrics where
  rate : ℚ
  daysToClog : Option ℚ
  stabilityIndex : ℤ
deriving DecidableEq, Repr

/-- The list of non-skipped `pairRate`s of the slope loop of
`computeAccumulationMetrics` (`part_001` lines 296–308): consecutive pairs
`(formatted[i-1], formatted[i])` for `i` from `length - N` to `length - 1`,
keeping only pairs whose `dtHours` is positive. -/
def pairRates (formatted : List Point) (N : ℕ) : List ℚ :=
  ((formatted.zip formatted.tail).drop (formatted.length - 1 - N)).filterMap
    (fun pq =>
      let dtHours := (pq.2.timeMs - pq.1.timeMs) / 3600000
      if dtHours ≤ 0 then none
      else some ((pq.2.value - pq.1.value) / dtHours))

/-- The (unrounded) `avgRate` the loop of `computeAccumulationMetrics`
produces: arithmetic mean of the non-skipped pair rates over the last
`N = min 6 (length - 1)` pairs, `0` when no pair is usable or the window
holds fewer than two points. -/
def avgRateOf (formatted : List Point) : ℚ :=
  if formatted.length < 2 then 0
  else
    let rates := pairRates formatted (min 6 (formatted.length - 1))
    if rates.length = 0 then 0 else rates.sum / (rates.length : ℚ)

/-- `computeAccumulationMetrics` (`part_001` lines 285–327).  Inside the
`length ≥ 2` branch, `avgRateOf formatted` is exactly the loop's
`avgRate = used ? totalRate / used : 0`.  The published rate is
`Number(avgRate.toFixed(2))`; `daysToClog` is set only when `avgRate > 0`;
the stability index is `Math.round(100 - clamp)`. -/
def computeAccumulationMetrics (formatted : List Point) : AccMetrics :=
  if formatted.length < 2 then { rate := 0, daysToClog := none, stabilityIndex := 100 }
  else
    let avgRate := avgRateOf formatted
    let current := (formatted.getLastD ⟨0, 0, 0⟩).value
    let daysToClog :=
      if avgRate > 0 then
        let ntuLeft := thresholds.critical - current
        let hoursToClog := if ntuLeft > 0 then ntuLeft / avgRate else 0
        some (if hoursToClog > 0 then round1 (hoursToClog / 24) else 0)
      else none
    let stability := max 0 (100 - min 100 (|avgRate| / thresholds.critical * 100))
    { rate := round2 avgRate, daysToClog := daysToClog, stabilityIndex := jsRound stability }

/-- The published statistics record `{latest, average, highest, trend}`. -/
structure Stats where
  latest : ℚ
  average : ℚ
  highest : ℚ
  trend : Trend
deriving DecidableEq, Repr

/-- `updateStatsIncrementally` (`Dashboard.jsx` lines 191–214, identically
`part_003` lines 229–252): `data` is the full updated window's value list,
`stats` the previously published statistics, `oldLen` the window length
before the append.  Only the last value of `data` feeds the running
average and the maximum; the published average is `Math.round`ed. -/
def updateStatsIncrementally (stats : Stats) (oldLen : ℕ) (data : List ℚ) : Stats :=
  if data.length = 0 then stats
  else
    let latest := data.getLastD 0
    let highest := max stats.highest latest
    let newAverage := (stats.average * (oldLen : ℚ) + latest) / ((oldLen : ℚ) + 1)
    let trend := calculateTrend (lastN 10 data)
    { latest := latest, average := (jsRound newAverage : ℚ), highest := highest,
      trend := trend }

/-- Modelled from the claim's words (for claim C3's refinement comparison):
process each appended reading in order, folding
`newAvg = (oldAvg * oldCount + value) / (oldCount + 1)` with the count
incremented per reading and `highest = max highest value`; `latest` is the
last appended value and the trend is recomputed from the last 10 values of
the updated window. -/
def updateStatsPerReadingSpec (stats : Stats) (oldLen : ℕ) (batch : List ℚ)
    (updatedWindow : List ℚ) : Stats :=
  let step : (ℚ × ℕ × ℚ) → ℚ → (ℚ × ℕ × ℚ) := fun acc v =>
    ((acc.1 * (acc.2.1 : ℚ) + v) / ((acc.2.1 : ℚ) + 1), acc.2.1 + 1, max acc.2.2 v)
  let folded := batch.foldl step (stats.average, oldLen, stats.highest)
  { latest := batch.getLastD stats.latest, average := folded.1,
    highest := folded.2.2, trend := calculateTrend (lastN 10 updatedWindow) }

/-- Modelled from the claim's words (for claim C2's refinement comparison):
like `calculateTrend` but with the first half holding the first `⌈n/2⌉`
values instead of the source's `Math.floor(n / 2)`. -/
def calculateTrendCeilSpec (values : List ℚ) : Trend :=
  if values.length < 2 then .stable
  else
    let mid := (values.length + 1) / 2
    let first := values.take mid
    let second := values.drop mid
    let avg1 := first.sum / (first.length : ℚ)
    let avg2 := second.sum / (second.length : ℚ)
    if avg2 > avg1 * (11/10) then .rising
    else if avg2 < avg1 * (9/10) then .falling
    else .stable

/-- The ingestion controller state the claims refer to: the window
(`turbidityData` as kept in `turbidityDataRef`/`chartDataRef`) and the
cursor (`lastDataId.current`). -/
structure PollState where
  window : List Point
  cursor : ℤ
deriving DecidableEq, Repr

/-- The state transformation of a completed `fetchNewData` response
(`part_001` lines 205–223): a nonempty response is mapped through
`toPoint`, appended wholesale, capped by `slice(-1000)`, and the cursor is
set to the last row's id; an empty response leaves everything unchanged. -/
def fetchNewDataApply (st : PollState) (data : List Row) : PollState :=
  if data.length = 0 then st
  else
    { window := lastN 1000 (st.window ++ data.map toPoint),
      cursor := (data.getLastD ⟨0, 0, 0⟩).id }

/-- The state transformation of a completed `fetchTurbidityData` response
(`part_001` lines 140–149 with `processTurbidityData` lines 230–259): a
nonempty (descending) response sets the cursor to the first row's id and
replaces the window with the reversed, mapped rows capped by
`slice(-1000)`; an empty response clears the window and keeps the cursor. -/
def fetchTurbidityApply (st : PollState) (data : List Row) : PollState :=
  if data.length = 0 then { st with window := [] }
  else
    { window := lastN 1000 ((data.map toPoint).reverse),
      cursor := (data.headD ⟨0, 0, 0⟩).id }

/-- The decision of `checkForNewData` (`part_001` lines 169–189): fetch
incrementally only when the probed latest id strictly exceeds the cursor
(`probe` is the id list returned by the `limit(1)` descending query). -/
def shouldFetchNew (st : PollState) (probe : List ℤ) : Bool :=
  match probe with
  | [] => false
  | latestId :: _ => latestId > st.cursor

/-! ## Helper lemmas -/

theorem lastN_length_le (n : ℕ) (l : List α) : (lastN n l).length ≤ n := by
  simp only [lastN, List.length_drop]
  omega

theorem lastN_suffix (n : ℕ) (l : List α) : lastN n l <:+ l :=
  List.drop_suffix _ _

theorem lastN_pairwise {R : α → α → Prop} {l : List α} (h : List.Pairwise R l)
    (n : ℕ) : List.Pairwise R (lastN n l) :=
  List.Pairwise.sublist (List.IsSuffix.sublist (lastN_suffix n l)) h

theorem getLastD_mem {l : List α} (d : α) (h : l ≠ []) : l.getLastD d ∈ l := by
  rw [List.getLastD_eq_getLast?, List.getLast?_eq_getLast l h]
  exact List.getLast_mem h

/-! ## Claim theorems -/

/-- C10: a window holding fewer than two readings publishes the fixed
triple `rate = 0`, `daysToClog = null`, `stabilityIndex = 100`, whatever
its values and timestamps are. -/
theorem accumulation_short_window (l : List Point) (h : l.length < 2) :
    computeAccumulationMetrics l =
      { rate := 0, daysToClog := none, stabilityIndex := 100 } := by
  unfold computeAccumulationMetrics
  rw [if_pos h]

theorem accumulation_short_window_witness :
    computeAccumulationMetrics [⟨1, 7, 9⟩] =
      { rate := 0, daysToClog := none, stabilityIndex := 100 } :=
  accumulation_short_window [⟨1, 7, 9⟩] (by decide)

/-- C4 counterexample: the published accumulation rate is the pair-rate
mean rounded to two decimals, not the mean itself.  Two readings three
hours apart with values 0 and 1 have pair-rate mean 1/3, but the published
rate is 0.33. -/
theorem accumulation_rate_rounding_cex :
    avgRateOf [⟨1, 0, 0⟩, ⟨2, 1, 10800000⟩] = 1/3 ∧
    (computeAccumulationMetrics [⟨1, 0, 0⟩, ⟨2, 1, 10800000⟩]).rate = 33/100 ∧
    (33 : ℚ)/100 ≠ 1/3 := by
  refine ⟨?_, ?_, by norm_num⟩
  · norm_num [avgRateOf, pairRates, List.filterMap]
  · norm_num [computeAccumulationMetrics, avgRateOf, pairRates, List.filterMap,
      round2, jsRound, round_eq, thresholds]

/-- C4 (amended): the published accumulation rate is `round2` of the
arithmetic mean of the non-skipped pair rates over the last
`N = min 6 (windowSize - 1)` consecutive pairs (`0` when no pair is
usable); the two readings `(t=0h, v=100)`, `(t=1h, v=200)` give rate
`100`. -/
theorem accumulation_rate_rounded (formatted : List Point) :
    (computeAccumulationMetrics formatted).rate = round2 (avgRateOf formatted) ∧
    (computeAccumulationMetrics [⟨1, 100, 0⟩, ⟨2, 200, 3600000⟩]).rate = 100 := by
  constructor
  · unfold computeAccumulationMetrics
    by_cases h : formatted.length < 2
    · rw [if_pos h]
      have h0 : avgRateOf formatted = 0 := by unfold avgRateOf; rw [if_pos h]
      rw [h0]
      norm_num [round2, jsRound]
    · rw [if_neg h]
  · norm_num [computeAccumulationMetrics, avgRateOf, pairRates, List.filterMap,
      round2, jsRound, round_eq, thresholds]

/-- C5: when the computed (unrounded) accumulation rate is strictly
positive, `daysToClog` is `((critical - current) / rate) / 24` rounded to
one decimal if `critical - current > 0` and `0` otherwise; when the rate
is not positive, `daysToClog` is absent.  With critical `1500`, current
value `200` and rate `100`, `daysToClog = 0.5`. -/
theorem daysToClog_projection (l : List Point) :
    (avgRateOf l > 0 →
      (computeAccumulationMetrics l).daysToClog =
        some (if thresholds.critical - (l.getLastD ⟨0, 0, 0⟩).value > 0
              then round1 (((thresholds.critical - (l.getLastD ⟨0, 0, 0⟩).value)
                            / avgRateOf l) / 24)
              else 0)) ∧
    (avgRateOf l ≤ 0 → (computeAccumulationMetrics l).daysToClog = none) ∧
    (computeAccumulationMetrics [⟨1, 100, 0⟩, ⟨2, 200, 3600000⟩]).daysToClog
      = some (1/2) := by
  refine ⟨?_, ?_, ?_⟩
  · intro h
    have hlen : ¬ l.length < 2 := by
      intro hl
      rw [avgRateOf, if_pos hl] at h
      exact lt_irrefl 0 h
    simp only [computeAccumulationMetrics]
    rw [if_neg hlen]
    simp only [if_pos h]
    by_cases hnl : thresholds.critical - (l.getLastD ⟨0, 0, 0⟩).value > 0
    · rw [if_pos hnl, if_pos hnl, if_pos (div_pos hnl h)]
    · rw [if_neg hnl, if_neg hnl, if_neg (lt_irrefl 0)]
  · intro h
    by_cases hlen : l.length < 2
    · simp [computeAccumulationMetrics, hlen]
    · simp only [computeAccumulationMetrics]
      rw [if_neg hlen]
      simp only [if_neg (not_lt.mpr h)]
  · norm_num [computeAccumulationMetrics, avgRateOf, pairRates, List.filterMap,
      round1, jsRound, round_eq, thresholds]

theorem daysToClog_projection_witness :
    (computeAccumulationMetrics [⟨1, 200, 0⟩, ⟨2, 100, 3600000⟩]).daysToClog = none :=
  (daysToClog_projection [⟨1, 200, 0⟩, ⟨2, 100, 3600000⟩]).2.1
    (by norm_num [avgRateOf, pairRates, List.filterMap])

/-- C2 counterexample: the source splits at `Math.floor(n / 2)`, not at
`⌈n/2⌉`.  On `[10, 20, 10]` the code's halves are `[10]` and `[20, 10]`
(means 10 and 15, so `rising`), while the claim's ceil split gives halves
`[10, 20]` and `[10]` (means 15 and 10, so `falling`).  Moreover a
constant list with a negative value classifies as `rising`, not `stable`
(`c > c * 1.1` holds for `c < 0`). -/
theorem calculateTrend_split_cex :
    calculateTrend [10, 20, 10] = .rising ∧
    calculateTrendCeilSpec [10, 20, 10] = .falling ∧
    calculateTrend [-10, -10] = .rising := by
  refine ⟨?_, ?_, ?_⟩
  · norm_num [calculateTrend]
  · norm_num [calculateTrendCeilSpec]
  · norm_num [calculateTrend]

/-- C2 (amended): fewer than 2 values give `stable`; otherwise the list is
split into the first `⌊n/2⌋` values and the remainder, and the result is
`rising` / `falling` / `stable` by comparing the half means against ×1.1
and ×0.9 of the first mean; `[10,10,10,10,20,20,20,20]` is `rising`, and
every constant list with a nonnegative value is `stable`. -/
theorem calculateTrend_floor_split (values : List ℚ) :
    (values.length < 2 → calculateTrend values = .stable) ∧
    (2 ≤ values.length →
      calculateTrend values =
        (let first := values.take (values.length / 2)
         let second := values.drop (values.length / 2)
         let avg1 := first.sum / (first.length : ℚ)
         let avg2 := second.sum / (second.length : ℚ)
         if avg2 > avg1 * (11/10) then .rising
         else if avg2 < avg1 * (9/10) then .falling
         else .stable)) ∧
    calculateTrend [10, 10, 10, 10, 20, 20, 20, 20] = .rising ∧
    (∀ (c : ℚ) (n : ℕ), 0 ≤ c → calculateTrend (List.replicate n c) = .stable) := by
  refine ⟨?_, ?_, ?_, ?_⟩
  · intro h
    unfold calculateTrend
    rw [if_pos h]
  · intro h
    simp only [calculateTrend]
    rw [if_neg (by omega)]
  · norm_num [calculateTrend]
  · intro c n hc
    by_cases h : (List.replicate n c).length < 2
    · unfold calculateTrend
      rw [if_pos h]
    · simp only [calculateTrend]
      rw [if_neg h]
      simp only [List.length_replicate] at h
      have h2 : 2 ≤ n := by omega
      have hmid : min (n / 2) n = n / 2 := Nat.min_eq_left (Nat.div_le_self n 2)
      rw [List.length_replicate, List.take_replicate, List.drop_replicate, hmid]
      simp only [List.sum_replicate, List.length_replicate, nsmul_eq_mul]
      have e1 : ((n / 2 : ℕ) : ℚ) ≠ 0 := by
        exact_mod_cast (by omega : n / 2 ≠ 0)
      have e2 : ((n - n / 2 : ℕ) : ℚ) ≠ 0 := by
        exact_mod_cast (by omega : n - n / 2 ≠ 0)
      rw [mul_div_cancel_left₀ c e1, mul_div_cancel_left₀ c e2]
      rw [if_neg (not_lt.mpr (by linarith)), if_neg (not_lt.mpr (by linarith))]

theorem calculateTrend_floor_split_witness :
    calculateTrend (List.replicate 3 (5 : ℚ)) = .stable :=
  (calculateTrend_floor_split (List.replicate 3 (5 : ℚ))).2.2.2 5 3 (by norm_num)

/-- C1: the alert classifier evaluates its rules top-down with first match
winning: Critical when latest or average reaches `critical`; then Critical
(rising) / Danger at the `danger` tier; then Danger (rising) / Warning at
the `warning` tier; then Warning (rising) / Normal when only
`latest >= normal`; else Normal.  With the thresholds
`{normal: 100, warning: 500, danger: 1000, critical: 1500}` and average
below `warning`: latest 1600 is Critical for any trend, latest 1100 is
Critical when rising and Danger when stable, latest 50 is Normal when
stable. -/
theorem determineAlertLevel_rules (l a : ℚ) (t : Trend) :
    ((l ≥ thresholds.critical ∨ a ≥ thresholds.critical) →
       determineAlertLevel l a t = .critical) ∧
    (¬(l ≥ thresholds.critical ∨ a ≥ thresholds.critical) →
     (l ≥ thresholds.danger ∨ a ≥ thresholds.danger) →
       determineAlertLevel l a t = (if t = .rising then .critical else .danger)) ∧
    (¬(l ≥ thresholds.critical ∨ a ≥ thresholds.critical) →
     ¬(l ≥ thresholds.danger ∨ a ≥ thresholds.danger) →
     (l ≥ thresholds.warning ∨ a ≥ thresholds.warning) →
       determineAlertLevel l a t = (if t = .rising then .danger else .warning)) ∧
    (¬(l ≥ thresholds.critical ∨ a ≥ thresholds.critical) →
     ¬(l ≥ thresholds.danger ∨ a ≥ thresholds.danger) →
     ¬(l ≥ thresholds.warning ∨ a ≥ thresholds.warning) →
     l ≥ thresholds.normal →
       determineAlertLevel l a t = (if t = .rising then .warning else .normal)) ∧
    (¬(l ≥ thresholds.critical ∨ a ≥ thresholds.critical) →
     ¬(l ≥ thresholds.danger ∨ a ≥ thresholds.danger) →
     ¬(l ≥ thresholds.warning ∨ a ≥ thresholds.warning) →
     ¬(l ≥ thresholds.normal) →
       determineAlertLevel l a t = .normal) ∧
    (a < thresholds.warning →
       determineAlertLevel 1600 a t = .critical ∧
       determineAlertLevel 1100 a .rising = .critical ∧
       determineAlertLevel 1100 a .stable = .danger ∧
       determineAlertLevel 50 a .stable = .normal) := by
  refine ⟨?_, ?_, ?_, ?_, ?_, ?_⟩
  · intro h1
    unfold determineAlertLevel
    rw [if_pos h1]
  · intro h1 h2
    unfold determineAlertLevel
    rw [if_neg h1, if_pos h2]
  · intro h1 h2 h3
    unfold determineAlertLevel
    rw [if_neg h1, if_neg h2, if_pos h3]
  · intro h1 h2 h3 h4
    unfold determineAlertLevel
    rw [if_neg h1, if_neg h2, if_neg h3, if_pos h4]
  · intro h1 h2 h3 h4
    unfold determineAlertLevel
    rw [if_neg h1, if_neg h2, if_neg h3, if_neg h4]
  · intro ha
    rw [show thresholds.warning = 500 from rfl] at ha
    have hnc : ¬((1100 : ℚ) ≥ thresholds.critical ∨ a ≥ thresholds.critical) := by
      rw [show thresholds.critical = 1500 from rfl]
      push_neg
      constructor <;> [norm_num; linarith]
    refine ⟨?_, ?_, ?_, ?_⟩
    · unfold determineAlertLevel
      rw [if_pos (Or.inl (by rw [show thresholds.critical = 1500 from rfl]; norm_num))]
    · unfold determineAlertLevel
      rw [if_neg hnc,
        if_pos (Or.inl (by rw [show thresholds.danger = 1000 from rfl]; norm_num))]
      rfl
    · unfold determineAlertLevel
      rw [if_neg hnc,
        if_pos (Or.inl (by rw [show thresholds.danger = 1000 from rfl]; norm_num))]
      rfl
    · have hnc' : ¬((50 : ℚ) ≥ thresholds.critical ∨ a ≥ thresholds.critical) := by
        rw [show thresholds.critical = 1500 from rfl]
        push_neg
        constructor <;> [norm_num; linarith]
      have hnd : ¬((50 : ℚ) ≥ thresholds.danger ∨ a ≥ thresholds.danger) := by
        rw [show thresholds.danger = 1000 from rfl]
        push_neg
        constructor <;> [norm_num; linarith]
      have hnw : ¬((50 : ℚ) ≥ thresholds.warning ∨ a ≥ thresholds.warning) := by
        rw [show thresholds.warning = 500 from rfl]
        push_neg
        constructor <;> [norm_num; linarith]
      unfold determineAlertLevel
      rw [if_neg hnc', if_neg hnd, if_neg hnw,
        if_neg (by rw [show thresholds.normal = 100 from rfl]; norm_num)]

theorem determineAlertLevel_rules_witness :
    determineAlertLevel 1600 0 Trend.stable = AlertLevel.critical :=
  ((determineAlertLevel_rules 1600 0 Trend.stable).2.2.2.2.2 (by norm_num [thresholds])).1

/-- C3 counterexample: the incremental update does not process each
appended reading in order — it folds in only the last appended value,
once.  Appending the batch `[300, 0]` to the one-element window `[0]`
(prior stats all zero), the code publishes average `0` and highest `0`,
while the claimed per-reading fold yields average `100` and highest
`300`. -/
theorem updateStats_batch_cex :
    updateStatsIncrementally ⟨0, 0, 0, .stable⟩ 1 [0, 300, 0] = ⟨0, 0, 0, .rising⟩ ∧
    updateStatsPerReadingSpec ⟨0, 0, 0, .stable⟩ 1 [300, 0] [0, 300, 0]
      = ⟨0, 100, 300, .rising⟩ ∧
    (0 : ℚ) ≠ 100 ∧ (0 : ℚ) ≠ 300 := by
  refine ⟨?_, ?_, by norm_num, by norm_num⟩
  · norm_num [updateStatsIncrementally, calculateTrend, lastN, jsRound, round_eq]
  · norm_num [updateStatsPerReadingSpec, calculateTrend, lastN, List.foldl]

/-- C3 (amended): the published statistics use only the last appended
value, once per batch: the average becomes
`round((oldAvg * oldCount + lastValue) / (oldCount + 1))` with the count
incremented once (`oldCount` = window length before the append), the
highest becomes `max(highest, lastValue)`, the latest is the last value
of the updated window, and the trend is recomputed from its last 10
values.  For a single-reading batch this coincides with the claimed
per-reading processing (up to the publish-time rounding of the
average). -/
theorem updateStats_last_value_only (stats : Stats) (oldLen : ℕ) (data : List ℚ)
    (h : data ≠ []) :
    updateStatsIncrementally stats oldLen data =
      { latest := data.getLastD 0,
        average := (jsRound ((stats.average * (oldLen : ℚ) + data.getLastD 0)
                              / ((oldLen : ℚ) + 1)) : ℚ),
        highest := max stats.highest (data.getLastD 0),
        trend := calculateTrend (lastN 10 data) } ∧
    (∀ w : List ℚ, ∀ v : ℚ,
       (updateStatsIncrementally stats oldLen (w ++ [v])).latest
         = (updateStatsPerReadingSpec stats oldLen [v] (w ++ [v])).latest ∧
       (updateStatsIncrementally stats oldLen (w ++ [v])).highest
         = (updateStatsPerReadingSpec stats oldLen [v] (w ++ [v])).highest ∧
       (updateStatsIncrementally stats oldLen (w ++ [v])).average
         = (jsRound (updateStatsPerReadingSpec stats oldLen [v] (w ++ [v])).average : ℚ) ∧
       (updateStatsIncrementally stats oldLen (w ++ [v])).trend
         = (updateStatsPerReadingSpec stats oldLen [v] (w ++ [v])).trend) := by
  constructor
  · unfold updateStatsIncrementally
    rw [if_neg (fun hc => h (List.length_eq_zero.mp hc))]
  · intro w v
    have hne : w ++ [v] ≠ [] := by simp
    have hlast : (w ++ [v]).getLastD 0 = v := List.getLastD_concat _ _ _
    unfold updateStatsIncrementally updateStatsPerReadingSpec
    rw [if_neg (fun hc => hne (List.length_eq_zero.mp hc))]
    simp [hlast]

theorem updateStats_last_value_only_witness :
    updateStatsIncrementally ⟨0, 0, 0, .stable⟩ 0 [5] =
      { latest := (5 : ℚ), average := 5, highest := 5, trend := .stable } := by
  rw [(updateStats_last_value_only ⟨0, 0, 0, .stable⟩ 0 [5] (by norm_num)).1]
  norm_num [calculateTrend, lastN, jsRound, round_eq]

/-- C6 counterexample: the incremental apply path performs no id check
and has no `InvariantViolation`.  With the window holding id 5 (cursor 5),
a store response whose only row has id 3 — minimum appended id 3 ≤ current
maximum window id 5 — is appended wholesale (value inverted to 2900), the
state changes, and the cursor is even set to 3. -/
theorem append_no_reject_cex :
    (([⟨3, 100, 1000⟩] : List Row).headD ⟨0, 0, 0⟩).id ≤ 5 ∧
    fetchNewDataApply ⟨[⟨5, 100, 0⟩], 5⟩ [⟨3, 100, 1000⟩] ≠ ⟨[⟨5, 100, 0⟩], 5⟩ ∧
    (fetchNewDataApply ⟨[⟨5, 100, 0⟩], 5⟩ [⟨3, 100, 1000⟩]).window
      = [⟨5, 100, 0⟩, ⟨3, 2900, 1000⟩] ∧
    (fetchNewDataApply ⟨[⟨5, 100, 0⟩], 5⟩ [⟨3, 100, 1000⟩]).cursor = 3 := by
  refine ⟨by norm_num, ?_, ?_, ?_⟩
  · norm_num [fetchNewDataApply, lastN, toPoint, invertIfNeeded, PollState.mk.injEq]
  · norm_num [fetchNewDataApply, lastN, toPoint, invertIfNeeded]
  · norm_num [fetchNewDataApply]

/-- C6 (amended): `fetchNewData` applies any nonempty response wholesale —
the window becomes the capped concatenation and the cursor the last row's
id, with no rejection.  For batches all of whose ids exceed the current
cursor (the only ones the `id > sinceId` query can deliver from a
well-behaved store), the cursor never decreases. -/
theorem fetchNewData_no_reject (st : PollState) (data : List Row) :
    (data ≠ [] →
      (fetchNewDataApply st data).window = lastN 1000 (st.window ++ data.map toPoint) ∧
      (fetchNewDataApply st data).cursor = (data.getLastD ⟨0, 0, 0⟩).id) ∧
    ((∀ r ∈ data, st.cursor < r.id) → st.cursor ≤ (fetchNewDataApply st data).cursor) := by
  constructor
  · intro h
    refine ⟨?_, ?_⟩ <;>
    · unfold fetchNewDataApply
      rw [if_neg (fun hc => h (List.length_eq_zero.mp hc))]
  · intro h
    by_cases hd : data = []
    · subst hd
      unfold fetchNewDataApply
      norm_num
    · unfold fetchNewDataApply
      rw [if_neg (fun hc => hd (List.length_eq_zero.mp hc))]
      exact le_of_lt (h _ (getLastD_mem ⟨0, 0, 0⟩ hd))

theorem fetchNewData_no_reject_witness :
    (⟨[⟨5, 100, 0⟩], 5⟩ : PollState).cursor
      ≤ (fetchNewDataApply ⟨[⟨5, 100, 0⟩], 5⟩ [⟨7, 100, 1000⟩]).cursor :=
  (fetchNewData_no_reject ⟨[⟨5, 100, 0⟩], 5⟩ [⟨7, 100, 1000⟩]).2 (by norm_num)

/-- C9 counterexample: a completed full-refresh result is applied with no
apply-time cursor check.  With the controller at cursor 10 (window holding
id 10), a completion whose maximum carried id is 5 — not strictly greater
than the current cursor — is not discarded: it replaces the window and
sets the cursor to 5. -/
theorem stale_refresh_applied_cex :
    (([⟨5, 100, 1000⟩] : List Row).headD ⟨0, 0, 0⟩).id
      ≤ (⟨[⟨10, 100, 0⟩], 10⟩ : PollState).cursor ∧
    fetchTurbidityApply ⟨[⟨10, 100, 0⟩], 10⟩ [⟨5, 100, 1000⟩] ≠ ⟨[⟨10, 100, 0⟩], 10⟩ ∧
    (fetchTurbidityApply ⟨[⟨10, 100, 0⟩], 10⟩ [⟨5, 100, 1000⟩]).cursor = 5 ∧
    (fetchTurbidityApply ⟨[⟨10, 100, 0⟩], 10⟩ [⟨5, 100, 1000⟩]).window
      = [⟨5, 2900, 1000⟩] := by
  refine ⟨by norm_num, ?_, ?_, ?_⟩
  · norm_num [fetchTurbidityApply, lastN, toPoint, invertIfNeeded, PollState.mk.injEq]
  · norm_num [fetchTurbidityApply]
  · norm_num [fetchTurbidityApply, lastN, toPoint, invertIfNeeded]

/-- C9 (amended): only the incremental path guards staleness, and only
before fetching — `checkForNewData` fetches nothing when the probed latest
id does not strictly exceed the cursor (or the probe is empty).  Neither
path re-checks at apply time: a nonempty full-refresh completion always
sets the cursor to its first row's id and replaces the window. -/
theorem stale_guard_before_fetch_only (st : PollState) :
    (∀ latestId : ℤ, ∀ rest : List ℤ, latestId ≤ st.cursor →
       shouldFetchNew st (latestId :: rest) = false) ∧
    shouldFetchNew st [] = false ∧
    (∀ rows : List Row, rows ≠ [] →
       (fetchTurbidityApply st rows).cursor = (rows.headD ⟨0, 0, 0⟩).id ∧
       (fetchTurbidityApply st rows).window
         = lastN 1000 ((rows.map toPoint).reverse)) := by
  refine ⟨?_, rfl, ?_⟩
  · intro latestId rest h
    simp only [shouldFetchNew]
    exact decide_eq_false (not_lt.mpr h)
  · intro rows h
    refine ⟨?_, ?_⟩ <;>
    · unfold fetchTurbidityApply
      rw [if_neg (fun hc => h (List.length_eq_zero.mp hc))]

theorem stale_guard_before_fetch_only_witness :
    shouldFetchNew ⟨[], 7⟩ [3, 2] = false :=
  (stale_guard_before_fetch_only ⟨[], 7⟩).1 3 [2] (by norm_num)

theorem binsAdd_fields (b : Bins) (v : ℚ) :
    (binsAdd b v).normal = b.normal + (if v < thresholds.normal then 1 else 0) ∧
    (binsAdd b v).warning
      = b.warning + (if thresholds.normal ≤ v ∧ v < thresholds.warning then 1 else 0) ∧
    (binsAdd b v).danger
      = b.danger + (if thresholds.warning ≤ v ∧ v < thresholds.danger then 1 else 0) ∧
    (binsAdd b v).critical
      = b.critical + (if thresholds.danger ≤ v then 1 else 0) := by
  unfold binsAdd
  have t1 : thresholds.normal = 100 := rfl
  have t2 : thresholds.warning = 500 := rfl
  have t3 : thresholds.danger = 1000 := rfl
  rw [t1, t2, t3]
  split_ifs with h1 h2 h3 <;>
    refine ⟨?_, ?_, ?_, ?_⟩ <;>
    simp_all <;> linarith

theorem distribution_foldl (values : List ℚ) (b : Bins) :
    (values.foldl binsAdd b).normal
      = b.normal + values.countP (fun v => decide (v < thresholds.normal)) ∧
    (values.foldl binsAdd b).warning
      = b.warning + values.countP
          (fun v => decide (thresholds.normal ≤ v ∧ v < thresholds.warning)) ∧
    (values.foldl binsAdd b).danger
      = b.danger + values.countP
          (fun v => decide (thresholds.warning ≤ v ∧ v < thresholds.danger)) ∧
    (values.foldl binsAdd b).critical
      = b.critical + values.countP (fun v => decide (thresholds.danger ≤ v)) := by
  induction values generalizing b with
  | nil => simp
  | cons v tl ih =>
    obtain ⟨ih1, ih2, ih3, ih4⟩ := ih (binsAdd b v)
    obtain ⟨e1, e2, e3, e4⟩ := binsAdd_fields b v
    refine ⟨?_, ?_, ?_, ?_⟩ <;>
      simp only [List.foldl_cons, List.countP_cons, ih1, ih2, ih3, ih4, e1, e2, e3, e4,
        decide_eq_true_eq] <;>
      split_ifs <;> omega

theorem countP_nonneg_band (values : List ℚ) (h : ∀ v ∈ values, 0 ≤ v) :
    values.countP (fun v => decide (v < thresholds.normal))
      = values.countP (fun v => decide (0 ≤ v ∧ v < thresholds.normal)) := by
  induction values with
  | nil => rfl
  | cons v tl ih =>
    simp only [List.countP_cons]
    rw [ih (fun x hx => h x (List.mem_cons_of_mem _ hx))]
    have h0 := h v (List.mem_cons_self _ _)
    congr 1
    simp [h0]

/-- C7: the distribution consists of exactly four counts of the window's
values over the bands `[0, normal)`, `[normal, warning)`,
`[warning, danger)`, `[danger, ∞)` (for the nonnegative values the sensor
domain provides; a defensive `v < normal` branch would also absorb a
negative value).  With the thresholds
`{normal: 100, warning: 500, danger: 1000, critical: 1500}`, the values
`[50, 150, 600, 1200, 1600]` bin to `{1, 1, 1, 2}`. -/
theorem computeDistribution_bands (values : List ℚ) (h : ∀ v ∈ values, 0 ≤ v) :
    (computeDistribution values).normal
      = values.countP (fun v => decide (0 ≤ v ∧ v < thresholds.normal)) ∧
    (computeDistribution values).warning
      = values.countP (fun v => decide (thresholds.normal ≤ v ∧ v < thresholds.warning)) ∧
    (computeDistribution values).danger
      = values.countP (fun v => decide (thresholds.warning ≤ v ∧ v < thresholds.danger)) ∧
    (computeDistribution values).critical
      = values.countP (fun v => decide (thresholds.danger ≤ v)) ∧
    computeDistribution [50, 150, 600, 1200, 1600] = ⟨1, 1, 1, 2⟩ := by
  obtain ⟨e1, e2, e3, e4⟩ := distribution_foldl values ⟨0, 0, 0, 0⟩
  refine ⟨?_, ?_, ?_, ?_, ?_⟩
  · rw [computeDistribution, e1, ← countP_nonneg_band values h]
    simp
  · rw [computeDistribution, e2]
    simp
  · rw [computeDistribution, e3]
    simp
  · rw [computeDistribution, e4]
    simp
  · norm_num [computeDistribution, binsAdd, thresholds]

theorem computeDistribution_bands_witness :
    (computeDistribution [50, 150, 600, 1200, 1600]).critical
      = ([50, 150, 600, 1200, 1600] : List ℚ).countP
          (fun v => decide (thresholds.danger ≤ v)) :=
  (computeDistribution_bands [50, 150, 600, 1200, 1600]
    (by norm_num)).2.2.2.1

/-- C8: starting from a window within capacity (1000 in `part_001`) and
strictly ascending by id, appending a strictly ascending batch whose ids
all exceed the window's leaves the window within capacity, still strictly
ascending, and a suffix of the concatenation (oldest entries evicted from
the front); every full-refresh replacement is likewise within capacity and
ascending when the fetched rows are descending. -/
theorem window_capacity_invariant (st : PollState) (data : List Row)
    (h0 : st.window.length ≤ 1000)
    (h1 : List.Pairwise (fun p q : Point => p.id < q.id) st.window)
    (h2 : List.Pairwise (fun r s : Row => r.id < s.id) data)
    (h3 : ∀ p ∈ st.window, ∀ r ∈ data, p.id < r.id) :
    ((fetchNewDataApply st data).window.length ≤ 1000 ∧
     List.Pairwise (fun p q : Point => p.id < q.id) (fetchNewDataApply st data).window ∧
     (fetchNewDataApply st data).window <:+ st.window ++ data.map toPoint) ∧
    (∀ rows : List Row, (fetchTurbidityApply st rows).window.length ≤ 1000) ∧
    (∀ rows : List Row, List.Pairwise (fun r s : Row => s.id < r.id) rows →
       List.Pairwise (fun p q : Point => p.id < q.id)
         (fetchTurbidityApply st rows).window) := by
  have hall : List.Pairwise (fun p q : Point => p.id < q.id)
      (st.window ++ data.map toPoint) := by
    rw [List.pairwise_append]
    refine ⟨h1, List.pairwise_map.mpr h2, ?_⟩
    intro p hp q hq
    rcases List.mem_map.mp hq with ⟨r, hr, rfl⟩
    exact h3 p hp r hr
  refine ⟨?_, ?_, ?_⟩
  · by_cases hd : data.length = 0
    · have hdn : data = [] := List.length_eq_zero.mp hd
      subst hdn
      have he : fetchNewDataApply st [] = st := rfl
      rw [he]
      refine ⟨h0, h1, ?_⟩
      simp only [List.map_nil, List.append_nil]
      exact List.suffix_refl _
    · unfold fetchNewDataApply
      simp only [if_neg hd]
      exact ⟨lastN_length_le _ _, lastN_pairwise hall _, lastN_suffix _ _⟩
  · intro rows
    unfold fetchTurbidityApply
    by_cases hd : rows.length = 0
    · simp only [if_pos hd]
      simp
    · simp only [if_neg hd]
      exact lastN_length_le _ _
  · intro rows hdesc
    unfold fetchTurbidityApply
    by_cases hd : rows.length = 0
    · simp only [if_pos hd]
      simp
    · simp only [if_neg hd]
      refine lastN_pairwise ?_ _
      rw [List.pairwise_reverse]
      exact List.pairwise_map.mpr hdesc

theorem window_capacity_invariant_witness :
    (fetchNewDataApply ⟨[⟨1, 5, 0⟩], 1⟩ [⟨2, 5, 1⟩]).window.length ≤ 1000 :=
  (window_capacity_invariant ⟨[⟨1, 5, 0⟩], 1⟩ [⟨2, 5, 1⟩]
    (by norm_num) (by simp) (by simp) (by norm_num)).1.1
